import Mathlib

/-!
# Type-erased dynamic values: a shallow embedding

This file embeds the two sibling designs of the repository in Lean 4:

* **Variant A** (`dyn-partialeq.rs`): an enum `Val` with an unboxed `Int(i64)`
  case and a type-erased `Obj(Box<dyn Obj>)` case; the only payload type
  implementing `Obj` there is `Complex { x, y }`.  Typed access goes through
  `obj::<T>`, `obj_mut::<T>` and the consuming `obj_into::<T>`.

* **Variant B** (`dyn-rc-refcell.rs`): `Val { value: Rc<RefCell<BoxedObj>> }`
  with payload types `Int { int: i64 }` and `Complex { x, y }`, dynamic
  equality `dyn_eq`, dynamic ordering `dyn_partial_cmp`, runtime-borrow-checked
  views `object::<T>` / `object_mut::<T>`, and the consuming
  `into_object::<T>` built on `Rc::try_unwrap`.

Machine integers `i64` are modelled as `Int`; none of the verified operations
perform arithmetic, so overflow never arises.  Rust's `TypeId`/`Any`
machinery is modelled by a closed universe `Ty` of request types (the two
concrete payload types plus a representative unrelated type), with downcasts
deciding by constructor.  `RefCell` borrow-conflict panics and the
`Rc::try_unwrap(..).unwrap()` panic are modelled as `Except` errors; the
reference-counted heap of Variant B is a map from cell indices to cell states.
-/

/-- Rust's `i64`; the verified code only compares and copies these values. -/
abbrev i64 := Int

namespace VariantA

/-- `struct Complex { x: i64, y: i64 }` of `dyn-partialeq.rs`. -/
structure Complex where
  x : i64
  y : i64
deriving DecidableEq, Repr

/-- The `#[derive(PartialEq)]` equality of `Complex`: field-wise `==`. -/
def Complex.eq (a b : Complex) : Bool :=
  a.x == b.x && a.y == b.y

/-- The runtime type tokens (`std::any::TypeId`) a caller can request a
downcast to: `i64`, `Complex`, or some unrelated `Any` type (`other`). -/
inductive Ty where
  | i64
  | complex
  | other
deriving DecidableEq, Repr

/-- The Lean type a request token stands for. -/
def Ty.interp : Ty → Type
  | .i64 => Int
  | .complex => Complex
  | .other => Unit

/-- `Box<dyn Obj>`: in `dyn-partialeq.rs` the only implementor of `Obj` is
`Complex`, so the type-erased universe has a single inhabitant shape. -/
inductive BoxedObj where
  | complex : Complex → BoxedObj
deriving DecidableEq, Repr

/-- `obj.as_any().downcast_ref::<T>()`: succeeds exactly when the runtime
type of the payload matches the requested token. -/
def BoxedObj.downcast_ref : (t : Ty) → BoxedObj → Option t.interp
  | .complex, .complex c => some c
  | .i64, .complex _ => none
  | .other, .complex _ => none

/-- `obj.as_any_mut().downcast_mut::<T>()`: the same runtime-identity check;
the view it returns is modelled by the value it would expose. -/
def BoxedObj.downcast_mut : (t : Ty) → BoxedObj → Option t.interp
  | .complex, .complex c => some c
  | .i64, .complex _ => none
  | .other, .complex _ => none

/-- `obj.into_any().downcast::<T>()` on the owned box: the payload is handed
out on a match; on a mismatch the box (and payload) is dropped and nothing
is returned. -/
def BoxedObj.into_any_downcast : (t : Ty) → BoxedObj → Option t.interp
  | .complex, .complex c => some c
  | .i64, .complex _ => none
  | .other, .complex _ => none

/-- `PartialEqBoxedObj::dyn_eq`: downcast `other` to `self`'s concrete type;
on success delegate to that type's `eq`, on failure return `false`. -/
def dyn_eq (self other : BoxedObj) : Bool :=
  match self with
  | .complex a =>
    match other.downcast_ref .complex with
    | some b => Complex.eq a b
    | none => false

/-- `enum Val { Int(i64), Obj(Box<dyn Obj>) }`. -/
inductive Val where
  | Int : i64 → Val
  | Obj : BoxedObj → Val

/-- The `#[derive(PartialEq)]` equality of `Val`: equal variants compare
their fields (`i64` by `==`, `Box<dyn Obj>` by `dyn_eq`), distinct variants
compare unequal. -/
def Val.eq : Val → Val → Bool
  | .Int a, .Int b => a == b
  | .Obj a, .Obj b => dyn_eq a b
  | .Int _, .Obj _ => false
  | .Obj _, .Int _ => false

/-- `Val::obj::<T>()`: a borrowed view of the payload iff the `Obj` case is
active and the runtime type matches; the `Int` case always yields `none`. -/
def Val.obj (t : Ty) : Val → Option t.interp
  | .Obj o => o.downcast_ref t
  | .Int _ => none

/-- `Val::obj_mut::<T>()`: the mutable counterpart of `obj`, with the same
identity check and the same `none` on the `Int` case. -/
def Val.obj_mut (t : Ty) : Val → Option t.interp
  | .Obj o => o.downcast_mut t
  | .Int _ => none

/-- `Val::obj_into::<T>(self)`: consumes the `Val` (Rust takes `self` by
value); the boxed payload is turned into `Box<dyn Any>` and downcast, so the
result is the payload on a match and `none` otherwise — on a mismatch the
payload is dropped with the box, and the handle is never handed back (the
return type carries only `Option<T>`). -/
def Val.obj_into (t : Ty) : Val → Option t.interp
  | .Obj o => o.into_any_downcast t
  | .Int _ => none

/-- `impl From<i64> for Val`. -/
def Val.fromI64 (value : i64) : Val :=
  .Int value

/-- `impl From<Complex> for Val`. -/
def Val.fromComplex (value : Complex) : Val :=
  .Obj (.complex value)

end VariantA

namespace VariantB

/-- `struct Int { int: i64 }` of `dyn-rc-refcell.rs`. -/
structure Int where
  int : i64
deriving DecidableEq, Repr

/-- The `#[derive(PartialEq)]` equality of `Int`. -/
def Int.eq (a b : Int) : Bool :=
  a.int == b.int

/-- The `#[derive(PartialOrd)]` comparison of `Int`: `i64` ordering is total,
so this is always `some`. -/
def Int.partial_cmp (a b : Int) : Option Ordering :=
  some (compare a.int b.int)

/-- `struct Complex { x: i64, y: i64 }` of `dyn-rc-refcell.rs`. -/
structure Complex where
  x : i64
  y : i64
deriving DecidableEq, Repr

/-- The `#[derive(PartialEq)]` equality of `Complex`: field-wise `==`. -/
def Complex.eq (a b : Complex) : Bool :=
  a.x == b.x && a.y == b.y

/-- The `#[derive(PartialOrd)]` comparison of `Complex`: lexicographic on
`x` then `y`; total on `i64` fields, so always `some`. -/
def Complex.partial_cmp (a b : Complex) : Option Ordering :=
  some ((compare a.x b.x).then (compare a.y b.y))

/-- The runtime type tokens of Variant B: the payload types `Int` and
`Complex`, plus a representative unrelated `Any` type (`other`). -/
inductive Ty where
  | int
  | complex
  | other
deriving DecidableEq, Repr

/-- The Lean type a request token stands for. -/
def Ty.interp : Ty → Type
  | .int => Int
  | .complex => Complex
  | .other => Unit

/-- `Box<dyn Obj>`: `Obj` is implemented by `Int` and `Complex`. -/
inductive BoxedObj where
  | int : Int → BoxedObj
  | complex : Complex → BoxedObj
deriving DecidableEq, Repr

/-- The runtime type token (`TypeId`) of a payload. -/
def BoxedObj.type_id : BoxedObj → Ty
  | .int _ => .int
  | .complex _ => .complex

/-- `obj.as_any().downcast_ref::<T>()`. -/
def BoxedObj.downcast_ref : (t : Ty) → BoxedObj → Option t.interp
  | .int, .int a => some a
  | .complex, .complex c => some c
  | .int, .complex _ => none
  | .complex, .int _ => none
  | .other, _ => none

/-- `value.as_any().is::<T>()`: the identity test used by `object` and
`object_mut` before mapping the guard. -/
def BoxedObj.isTy : Ty → BoxedObj → Bool
  | .int, .int _ => true
  | .complex, .complex _ => true
  | .int, .complex _ => false
  | .complex, .int _ => false
  | .other, _ => false

/-- `value.into_any().downcast::<T>()` on the owned box: payload on a match,
nothing (payload dropped with the box) on a mismatch. -/
def BoxedObj.into_any_downcast : (t : Ty) → BoxedObj → Option t.interp
  | .int, .int a => some a
  | .complex, .complex c => some c
  | .int, .complex _ => none
  | .complex, .int _ => none
  | .other, _ => none

/-- The action of a `RefMut<T>` guard: mutate the payload through the
downcast-mut view. The guard only exists when the type matches, in which
case the payload is replaced by the mutated value. -/
def BoxedObj.modify : (t : Ty) → (t.interp → t.interp) → BoxedObj → BoxedObj
  | .int, f, .int a => .int (f a)
  | .complex, f, .complex c => .complex (f c)
  | .int, _, .complex c => .complex c
  | .complex, _, .int a => .int a
  | .other, _, o => o

/-- `PartialEqBoxedObj::dyn_eq`: downcast `other` to `self`'s concrete type;
delegate to that type's `eq` on success, `false` on failure. -/
def dyn_eq (self other : BoxedObj) : Bool :=
  match self with
  | .int a =>
    match other.downcast_ref .int with
    | some b => Int.eq a b
    | none => false
  | .complex a =>
    match other.downcast_ref .complex with
    | some b => Complex.eq a b
    | none => false

/-- `PartialOrdBoxedObj::dyn_partial_cmp`: downcast `other` to `self`'s
concrete type; delegate to that type's `partial_cmp` on success, `none`
(incomparable) on failure. -/
def dyn_partial_cmp (self other : BoxedObj) : Option Ordering :=
  match self with
  | .int a =>
    match other.downcast_ref .int with
    | some b => Int.partial_cmp a b
    | none => none
  | .complex a =>
    match other.downcast_ref .complex with
    | some b => Complex.partial_cmp a b
    | none => none

/-- The `RefCell` borrow flag: free, `n + 1` outstanding shared views
(`reading (n + 1)`), or one outstanding exclusive view (`writing`). -/
inductive BorrowFlag where
  | free
  | reading : Nat → BorrowFlag
  | writing
deriving DecidableEq, Repr

/-- The two runtime borrow-conflict panics of `RefCell`:
`borrow()` while mutably borrowed, and `borrow_mut()` while borrowed. -/
inductive BorrowError where
  | alreadyMutablyBorrowed
  | alreadyBorrowed
deriving DecidableEq, Repr

/-- One `Rc<RefCell<BoxedObj>>` allocation: the payload, the strong
reference count, and the `RefCell` borrow flag. A cell with `strong = 0`
has been deallocated. -/
structure Cell where
  obj : BoxedObj
  strong : Nat
  borrow : BorrowFlag
deriving DecidableEq, Repr

/-- `RefCell::borrow()`: panics (modelled as an error) while a write view is
outstanding; otherwise records one more shared view. -/
def Cell.try_borrow (c : Cell) : Except BorrowError Cell :=
  match c.borrow with
  | .writing => .error .alreadyMutablyBorrowed
  | .free => .ok { c with borrow := .reading 1 }
  | .reading n => .ok { c with borrow := .reading (n + 1) }

/-- `RefCell::borrow_mut()`: panics (modelled as an error) while any view is
outstanding; otherwise records the exclusive view. -/
def Cell.try_borrow_mut (c : Cell) : Except BorrowError Cell :=
  match c.borrow with
  | .free => .ok { c with borrow := .writing }
  | .reading _ => .error .alreadyBorrowed
  | .writing => .error .alreadyBorrowed

/-- The reference-counted store: cell index to cell state. Distinct `Val`
handles that hold the same index share the same underlying cell. -/
abbrev Heap := Nat → Cell

/-- Writing one cell of the heap. -/
def Heap.update (h : Heap) (i : Nat) (c : Cell) : Heap :=
  fun j => if j = i then c else h j

/-- `struct Val { value: Rc<RefCell<BoxedObj>> }`: the handle is the pointer
(cell index) of its shared allocation. -/
structure Val where
  value : Nat
deriving DecidableEq, Repr

/-- The `#[derive(PartialEq)]` equality of `Val`: `Rc` and `RefCell` compare
their contents, so two handles compare by `dyn_eq` of their payloads. -/
def Val.eq (v w : Val) (h : Heap) : Bool :=
  dyn_eq (h v.value).obj (h w.value).obj

/-- The `#[derive(PartialOrd)]` comparison of `Val`: delegates to
`dyn_partial_cmp` of the two payloads. -/
def Val.partial_cmp (v w : Val) (h : Heap) : Option Ordering :=
  dyn_partial_cmp (h v.value).obj (h w.value).obj

/-- `Val::object::<T>(&self)`: `self.value.borrow()` (a panic on conflict is
an error), then the `is::<T>` check; on a match the mapped `Ref<T>` guard is
returned — the read stays outstanding on the cell — and on a mismatch the
guard is dropped before returning `none`, leaving the heap unchanged. -/
def Val.object (t : Ty) (v : Val) (h : Heap) :
    Except BorrowError (Option (t.interp × Heap)) :=
  match (h v.value).try_borrow with
  | .error e => .error e
  | .ok c =>
    match c.obj.downcast_ref t with
    | some a => .ok (some (a, h.update v.value c))
    | none => .ok none

/-- `Val::object_mut::<T>(&self)`: `self.value.borrow_mut()` (a panic on
conflict is an error), then the `is::<T>` check; on a match the mapped
`RefMut<T>` guard is returned — the heap records the outstanding write —
and on a mismatch the guard is dropped, leaving the heap unchanged. -/
def Val.object_mut (t : Ty) (v : Val) (h : Heap) :
    Except BorrowError (Option Heap) :=
  match (h v.value).try_borrow_mut with
  | .error e => .error e
  | .ok c =>
    if c.obj.isTy t then .ok (some (h.update v.value c)) else .ok none

/-- Assignment through an outstanding `RefMut<T>` guard obtained from
`object_mut`: the payload is mutated in place in the shared cell. -/
def Val.guard_modify (t : Ty) (f : t.interp → t.interp) (v : Val) (h : Heap) :
    Heap :=
  h.update v.value
    { h v.value with obj := (h v.value).obj.modify t f }

/-- Dropping the `RefMut<T>` guard: the `RefCell` flag returns to free. -/
def Val.guard_drop_mut (v : Val) (h : Heap) : Heap :=
  h.update v.value { h v.value with borrow := .free }

/-- The `Rc::try_unwrap(..).unwrap()` panic of `into_object`: the strong
count was above one, i.e. other handles share the cell. -/
inductive TakeError where
  | sharedOwnership
deriving DecidableEq, Repr

/-- `Val::into_object::<T>(self)`: `Rc::try_unwrap` succeeds only when this
handle is the sole owner (`strong = 1`); then the cell is dismantled
(`strong` drops to `0`) and the box downcast — payload on a match, `none`
(payload dropped) on a mismatch. With other owners alive, `unwrap` panics
(the error); the consumed handle's count is released and the surviving
owners keep the untouched cell. -/
def Val.into_object (t : Ty) (v : Val) (h : Heap) :
    Except TakeError (Option t.interp) × Heap :=
  let c := h v.value
  if c.strong == 1 then
    (.ok (c.obj.into_any_downcast t),
      h.update v.value { c with strong := 0 })
  else
    (.error .sharedOwnership,
      h.update v.value { c with strong := c.strong - 1 })

/-- `Val::new` places the payload in a fresh cell with a single owner. -/
def Cell.new (value : BoxedObj) : Cell :=
  { obj := value, strong := 1, borrow := .free }

/-- `impl From<i64> for Val`, seen at the payload level:
`Box::new(Int { int })`. -/
def fromI64 (int : i64) : BoxedObj :=
  .int { int := int }

/-- `impl From<Complex> for Val`, seen at the payload level. -/
def fromComplex (value : Complex) : BoxedObj :=
  .complex value

end VariantB

/-! ## Helper lemmas -/

namespace VariantA

theorem dyn_eq_self (o : BoxedObj) : dyn_eq o o = true := by
  cases o with
  | complex c => simp [dyn_eq, BoxedObj.downcast_ref, Complex.eq]

end VariantA

namespace VariantB

theorem dyn_eq_refl (o : BoxedObj) : dyn_eq o o = true := by
  cases o with
  | int a => simp [dyn_eq, BoxedObj.downcast_ref, Int.eq]
  | complex c => simp [dyn_eq, BoxedObj.downcast_ref, Complex.eq]

theorem dyn_eq_of_ne_type_id (o1 o2 : BoxedObj)
    (hne : o1.type_id ≠ o2.type_id) : dyn_eq o1 o2 = false := by
  cases o1 <;> cases o2 <;>
    first
      | rfl
      | exact absurd rfl hne

theorem dyn_partial_cmp_of_ne_type_id (o1 o2 : BoxedObj)
    (hne : o1.type_id ≠ o2.type_id) : dyn_partial_cmp o1 o2 = none := by
  cases o1 <;> cases o2 <;>
    first
      | rfl
      | exact absurd rfl hne

theorem into_any_downcast_of_not_isTy (t : Ty) (o : BoxedObj)
    (hm : o.isTy t = false) : o.into_any_downcast t = none := by
  cases t <;> cases o <;> first | rfl | simp [BoxedObj.isTy] at hm

end VariantB

/-! ## The claims -/

/-- **C1**: a `Value` wrapping a payload of type `A` never equals a `Value`
wrapping a payload of a distinct type `B`: in Variant A the unboxed `Int`
case compares unequal to the handle case in both directions; in Variant B
`dyn_eq`'s downcast fails across payload types, at the payload level and for
any two heap handles whose payloads have distinct runtime types; in
particular `Val::from(5_i64)` never equals `Val::from(Complex{x:5,y:0})`. -/
theorem C1_cross_type_inequality :
    (∀ (n : i64) (o : VariantA.BoxedObj),
      VariantA.Val.eq (.Int n) (.Obj o) = false ∧
      VariantA.Val.eq (.Obj o) (.Int n) = false) ∧
    (∀ (a : VariantB.Int) (c : VariantB.Complex),
      VariantB.dyn_eq (.int a) (.complex c) = false ∧
      VariantB.dyn_eq (.complex c) (.int a) = false) ∧
    (∀ (h : VariantB.Heap) (v w : VariantB.Val),
      (h v.value).obj.type_id ≠ (h w.value).obj.type_id →
      VariantB.Val.eq v w h = false) ∧
    VariantA.Val.eq (VariantA.Val.fromI64 5) (VariantA.Val.fromComplex ⟨5, 0⟩) = false ∧
    VariantB.dyn_eq (VariantB.fromI64 5) (VariantB.fromComplex ⟨5, 0⟩) = false := by
  refine ⟨fun n o => ⟨?_, ?_⟩, fun a c => ⟨rfl, rfl⟩, ?_, rfl, rfl⟩
  · cases o
    rfl
  · cases o
    rfl
  · intro h v w hne
    exact VariantB.dyn_eq_of_ne_type_id _ _ hne

/-- Witness for C1: two heap handles, one on a cell holding `Int { int: 5 }`
and one on a cell holding `Complex { x: 5, y: 0 }`, compare unequal. -/
theorem C1_cross_type_inequality_witness :
    VariantB.Val.eq ⟨0⟩ ⟨1⟩
      (fun j =>
        if j = 0 then VariantB.Cell.new (VariantB.fromI64 5)
        else VariantB.Cell.new (VariantB.fromComplex ⟨5, 0⟩)) = false :=
  C1_cross_type_inequality.2.2.1
    (fun j =>
      if j = 0 then VariantB.Cell.new (VariantB.fromI64 5)
      else VariantB.Cell.new (VariantB.fromComplex ⟨5, 0⟩))
    ⟨0⟩ ⟨1⟩ (by decide)

/-- **C2**: for payloads of the same concrete type, `Value` equality returns
exactly the payload type's own equality: the `i64` fast path and the
`Complex` handles of Variant A, and the `Int` and `Complex` payloads of
Variant B; in particular wrapping `Complex{x:23,y:42}` twice and comparing
yields `true` in both variants. -/
theorem C2_structural_equality_delegation :
    (∀ a b : i64, VariantA.Val.eq (.Int a) (.Int b) = (a == b)) ∧
    (∀ a b : VariantA.Complex,
      VariantA.Val.eq (.Obj (.complex a)) (.Obj (.complex b)) =
        VariantA.Complex.eq a b) ∧
    (∀ a b : VariantB.Int,
      VariantB.dyn_eq (.int a) (.int b) = VariantB.Int.eq a b) ∧
    (∀ a b : VariantB.Complex,
      VariantB.dyn_eq (.complex a) (.complex b) = VariantB.Complex.eq a b) ∧
    VariantA.Val.eq (VariantA.Val.fromComplex ⟨23, 42⟩)
      (VariantA.Val.fromComplex ⟨23, 42⟩) = true ∧
    VariantB.dyn_eq (VariantB.fromComplex ⟨23, 42⟩)
      (VariantB.fromComplex ⟨23, 42⟩) = true :=
  ⟨fun _ _ => rfl, fun _ _ => rfl, fun _ _ => rfl, fun _ _ => rfl,
    by decide, by decide⟩

/-- **C7**: equality is reflexive for every constructed `Value`: each Variant
A `Val` (the unboxed `Int` case and the `Complex` handle case) equals itself,
and each Variant B handle equals itself on any heap. -/
theorem C7_equality_reflexive :
    (∀ v : VariantA.Val, VariantA.Val.eq v v = true) ∧
    (∀ (h : VariantB.Heap) (v : VariantB.Val), VariantB.Val.eq v v h = true) := by
  constructor
  · intro v
    cases v with
    | Int a => simp [VariantA.Val.eq]
    | Obj o => simpa [VariantA.Val.eq] using VariantA.dyn_eq_self o
  · intro h v
    simpa [VariantB.Val.eq] using VariantB.dyn_eq_refl (h v.value).obj

/-- **C6**: in Variant B the ordering comparison of two `Value`s wrapping
payloads of different concrete types is `none` (incomparable): at the payload
level for `Int` versus `Complex` in both directions, and for any two heap
handles whose payloads have distinct runtime types. -/
theorem C6_incomparable_across_types :
    (∀ (a : VariantB.Int) (c : VariantB.Complex),
      VariantB.dyn_partial_cmp (.int a) (.complex c) = none ∧
      VariantB.dyn_partial_cmp (.complex c) (.int a) = none) ∧
    (∀ (h : VariantB.Heap) (v w : VariantB.Val),
      (h v.value).obj.type_id ≠ (h w.value).obj.type_id →
      VariantB.Val.partial_cmp v w h = none) := by
  refine ⟨fun a c => ⟨rfl, rfl⟩, fun h v w hne => ?_⟩
  exact VariantB.dyn_partial_cmp_of_ne_type_id _ _ hne

/-- Witness for C6: handles on an `Int { int: 1337 }` cell and a
`Complex { x: 23, y: 42 }` cell are incomparable. -/
theorem C6_incomparable_across_types_witness :
    VariantB.Val.partial_cmp ⟨0⟩ ⟨1⟩
      (fun j =>
        if j = 0 then VariantB.Cell.new (VariantB.fromI64 1337)
        else VariantB.Cell.new (VariantB.fromComplex ⟨23, 42⟩)) = none :=
  C6_incomparable_across_types.2
    (fun j =>
      if j = 0 then VariantB.Cell.new (VariantB.fromI64 1337)
      else VariantB.Cell.new (VariantB.fromComplex ⟨23, 42⟩))
    ⟨0⟩ ⟨1⟩ (by decide)

/-- **C9**: in Variant A the unboxed `Int` case supports no typed extraction:
`obj::<T>`, `obj_mut::<T>` and `obj_into::<T>` return `none` for every
request type `T` — including `T = i64` — because every accessor first
requires the `Obj` case to be active. -/
theorem C9_int_case_no_typed_access (n : i64) (t : VariantA.Ty) :
    VariantA.Val.obj t (.Int n) = none ∧
    VariantA.Val.obj_mut t (.Int n) = none ∧
    VariantA.Val.obj_into t (.Int n) = none :=
  ⟨rfl, rfl, rfl⟩

/-- **C4**: in Variant A, the consuming extraction `obj_into::<T>` on a `Val`
holding a `Complex` payload returns `none` for every request type `T` other
than `Complex`; Rust's signature takes `self` by value and returns only
`Option<T>`, so the handle is consumed and the mismatching payload is
dropped rather than handed back (nothing but `none` reaches the caller). -/
theorem C4_consuming_downcast_mismatch (c : VariantA.Complex)
    (t : VariantA.Ty) (ht : t ≠ .complex) :
    VariantA.Val.obj_into t (.Obj (.complex c)) = none := by
  cases t with
  | i64 => rfl
  | complex => exact absurd rfl ht
  | other => rfl

/-- Witness for C4: extracting an `i64` from a `Val` holding
`Complex { x: 1337, y: 666 }` yields `none`. -/
theorem C4_consuming_downcast_mismatch_witness :
    VariantA.Val.obj_into .i64 (.Obj (.complex ⟨1337, 666⟩)) = none :=
  C4_consuming_downcast_mismatch ⟨1337, 666⟩ .i64 (by decide)

/-- **C5**: in Variant B, while a write view (`RefMut` from `object_mut`) is
outstanding on a cell, acquiring any second view on that cell through any
handle faults: `object::<T>` hits the `RefCell::borrow` panic (already
mutably borrowed) and `object_mut::<T>` hits the `RefCell::borrow_mut`
panic (already borrowed) — neither ever silently succeeds. -/
theorem C5_second_view_faults_while_writing (h : VariantB.Heap)
    (v : VariantB.Val) (t : VariantB.Ty)
    (hw : (h v.value).borrow = .writing) :
    VariantB.Val.object t v h = .error .alreadyMutablyBorrowed ∧
    VariantB.Val.object_mut t v h = .error .alreadyBorrowed := by
  constructor
  · simp [VariantB.Val.object, VariantB.Cell.try_borrow, hw]
  · simp [VariantB.Val.object_mut, VariantB.Cell.try_borrow_mut, hw]

/-- Witness for C5: on a cell holding `Complex { x: 23, y: 42 }` whose write
view is outstanding, both accessors fault. -/
theorem C5_second_view_faults_while_writing_witness :
    VariantB.Val.object .complex ⟨0⟩
        (fun _ => ⟨VariantB.fromComplex ⟨23, 42⟩, 1, .writing⟩) =
      .error .alreadyMutablyBorrowed ∧
    VariantB.Val.object_mut .complex ⟨0⟩
        (fun _ => ⟨VariantB.fromComplex ⟨23, 42⟩, 1, .writing⟩) =
      .error .alreadyBorrowed :=
  C5_second_view_faults_while_writing
    (fun _ => ⟨VariantB.fromComplex ⟨23, 42⟩, 1, .writing⟩) ⟨0⟩ .complex rfl

/-- **C3**: in Variant B, `into_object::<T>` on a handle whose cell is shared
(strong count at least two) fails with the distinct shared-ownership panic
(`Rc::try_unwrap(..).unwrap()`), for every request type `T`; it never
silently succeeds, and the surviving owners' cell keeps the payload: after
the failing call the cell still holds the same object and a positive strong
count. -/
theorem C3_take_fails_when_shared (h : VariantB.Heap) (v : VariantB.Val)
    (t : VariantB.Ty) (hs : 2 ≤ (h v.value).strong) :
    (VariantB.Val.into_object t v h).1 = .error .sharedOwnership ∧
    ((VariantB.Val.into_object t v h).2 v.value).obj = (h v.value).obj ∧
    1 ≤ ((VariantB.Val.into_object t v h).2 v.value).strong := by
  have hne : ((h v.value).strong == 1) = false := by
    simp only [beq_eq_false_iff_ne, ne_eq]
    omega
  refine ⟨?_, ?_, ?_⟩
  · simp [VariantB.Val.into_object, VariantB.Heap.update, hne]
  · simp [VariantB.Val.into_object, VariantB.Heap.update, hne]
  · simp [VariantB.Val.into_object, VariantB.Heap.update, hne]
    omega

/-- Witness for C3: a cell holding `Complex { x: 23, y: 42 }` with two
owners; `into_object::<Complex>` faults and the cell survives intact. -/
theorem C3_take_fails_when_shared_witness :
    (VariantB.Val.into_object .complex ⟨0⟩
        (fun _ => ⟨VariantB.fromComplex ⟨23, 42⟩, 2, .free⟩)).1 =
      .error .sharedOwnership ∧
    ((VariantB.Val.into_object .complex ⟨0⟩
        (fun _ => ⟨VariantB.fromComplex ⟨23, 42⟩, 2, .free⟩)).2 0).obj =
      VariantB.fromComplex ⟨23, 42⟩ ∧
    1 ≤ ((VariantB.Val.into_object .complex ⟨0⟩
        (fun _ => ⟨VariantB.fromComplex ⟨23, 42⟩, 2, .free⟩)).2 0).strong :=
  C3_take_fails_when_shared
    (fun _ => ⟨VariantB.fromComplex ⟨23, 42⟩, 2, .free⟩) ⟨0⟩ .complex
    (by decide)

/-- **C10**: in Variant B, `into_object::<T>` on a uniquely owned handle
(strong count one) whose payload has a different concrete type than `T`
returns `none`, and the cell is dismantled (strong count zero): the
consume-on-mismatch data loss applies to Variant B's take as well. -/
theorem C10_take_mismatch_drops_payload (h : VariantB.Heap)
    (v : VariantB.Val) (t : VariantB.Ty)
    (hs : (h v.value).strong = 1)
    (hm : (h v.value).obj.isTy t = false) :
    (VariantB.Val.into_object t v h).1 = .ok none ∧
    ((VariantB.Val.into_object t v h).2 v.value).strong = 0 := by
  constructor
  · simp [VariantB.Val.into_object, hs,
      VariantB.into_any_downcast_of_not_isTy t (h v.value).obj hm]
  · simp [VariantB.Val.into_object, hs, VariantB.Heap.update]

/-- Witness for C10: the sole owner of an `Int { int: 1337 }` cell calls
`into_object::<Complex>`: the result is `none` and the cell is gone. -/
theorem C10_take_mismatch_drops_payload_witness :
    (VariantB.Val.into_object .complex ⟨0⟩
        (fun _ => VariantB.Cell.new (VariantB.fromI64 1337))).1 = .ok none ∧
    ((VariantB.Val.into_object .complex ⟨0⟩
        (fun _ => VariantB.Cell.new (VariantB.fromI64 1337))).2 0).strong = 0 :=
  C10_take_mismatch_drops_payload
    (fun _ => VariantB.Cell.new (VariantB.fromI64 1337)) ⟨0⟩ .complex
    rfl rfl

/-- **C8**: in Variant B, two handles on the same cell observe each other's
mutations: acquiring the write view `object_mut::<Complex>` through one
handle, assigning through it (e.g. `x = 1337, y = 666`) and dropping the
guard makes the read view `object::<Complex>` through the other handle
return the mutated payload. -/
theorem C8_mutation_visible_through_other_handle (h : VariantB.Heap)
    (v v2 : VariantB.Val) (a : VariantB.Complex)
    (f : VariantB.Complex → VariantB.Complex)
    (hshare : v2.value = v.value)
    (hobj : (h v.value).obj = .complex a)
    (hfree : (h v.value).borrow = .free) :
    ∃ h1, VariantB.Val.object_mut .complex v h = .ok (some h1) ∧
      (VariantB.Val.object .complex v2
          (VariantB.Val.guard_drop_mut v
            (VariantB.Val.guard_modify .complex f v h1))).map
          (Option.map Prod.fst) =
        .ok (some (f a)) := by
  refine ⟨h.update v.value { h v.value with borrow := .writing }, ?_, ?_⟩
  · simp [VariantB.Val.object_mut, VariantB.Cell.try_borrow_mut, hfree,
      hobj, VariantB.BoxedObj.isTy]
  · simp [VariantB.Val.guard_modify, VariantB.Val.guard_drop_mut,
      VariantB.Heap.update, VariantB.Val.object, VariantB.Cell.try_borrow,
      hshare, hobj, VariantB.BoxedObj.modify, VariantB.BoxedObj.downcast_ref,
      Except.map]

/-- Witness for C8: two handles (`⟨0⟩` twice) on one shared cell holding
`Complex { x: 23, y: 42 }`; writing `{ x: 1337, y: 666 }` through the first
is read back through the second. -/
theorem C8_mutation_visible_through_other_handle_witness :
    ∃ h1, VariantB.Val.object_mut .complex ⟨0⟩
        (fun _ => ⟨VariantB.fromComplex ⟨23, 42⟩, 2, .free⟩) = .ok (some h1) ∧
      (VariantB.Val.object .complex ⟨0⟩
          (VariantB.Val.guard_drop_mut ⟨0⟩
            (VariantB.Val.guard_modify .complex
              (fun _ => (⟨1337, 666⟩ : VariantB.Complex)) ⟨0⟩ h1))).map
          (Option.map Prod.fst) =
        .ok (some ⟨1337, 666⟩) :=
  C8_mutation_visible_through_other_handle
    (fun _ => ⟨VariantB.fromComplex ⟨23, 42⟩, 2, .free⟩) ⟨0⟩ ⟨0⟩ ⟨23, 42⟩
    (fun _ => ⟨1337, 666⟩) rfl rfl rfl
